import Mathlib

/-!
Verification of the pybioclim sampling engine (`src/get_data.py`).

Numbers are modelled as rationals (`ℚ`); the raster is a total function
from integer cell indices to values, mirroring the 2D numpy array.
The helpers that live outside `src/` (`coords.xy_coords`,
`coords.points_within_distance`, `config.find_data`, `read_headers`) are
modelled from the spec, as noted on each definition.
-/

namespace Pybioclim

/-- A GDAL dataset, as the code uses it: a description string, the 2D
raster array (`ReadAsArray`), and `RasterYSize` / `RasterXSize`. -/
structure Dataset where
  desc : String
  raster : ℤ × ℤ → ℚ
  ysize : ℕ
  xsize : ℕ

/-- Header metadata for one layer (`read_headers.metadata[file]`):
upper-left map coordinates, per-cell angular steps, and the optional
no-data sentinel (`KeyError` on a missing key is modelled by `none`). -/
structure MetaInfo where
  ulymap : ℚ
  ulxmap : ℚ
  ydim : ℚ
  xdim : ℚ
  nodata : Option ℚ

/-- Modelled from the spec: the geodesic machinery of `coords.py`, which is
not under `src/`. `gdist` is the great-circle distance function
("haversine or equivalent"); `latHalf radius` and `lonHalf centerLat radius`
are the angular half-extents in latitude and longitude of the bounding box
that could contain points within `radius` km of the center. -/
structure Geodesic where
  gdist : ℚ × ℚ → ℚ × ℚ → ℚ
  latHalf : ℚ → ℚ
  lonHalf : ℚ → ℚ → ℚ

/-- The process environment: the path-resolution service (`config.find_data`),
the raster opener (`gdal.Open`), the header metadata table, and the geodesic
machinery used by `coords.points_within_distance`. -/
structure Env where
  findData : String → Option String
  openData : String → Dataset
  meta : String → MetaInfo
  G : Geodesic

/-- Modelled from the spec: `coords.xy_coords` (not under `src/`), the
CoordinateMapper. row = floor((origin.lat − point.lat) / latStep),
col = floor((point.lon − origin.lon) / lonStep); the raster size argument
is accepted but no bounds checking is performed. -/
def xy_coords (point ul dims : ℚ × ℚ) (_size : ℕ × ℕ) : ℤ × ℤ :=
  (⌊(ul.1 - point.1) / dims.1⌋, ⌊(point.2 - ul.2) / dims.2⌋)

/-- The symmetric integer offsets `[-n, …, -1, 0, 1, …, n]`, used to
enumerate grid-aligned candidates around a center cell. -/
def stepsList : ℕ → List ℤ
  | 0 => [0]
  | n + 1 => (-(n + 1 : ℤ)) :: (stepsList n ++ [(n + 1 : ℤ)])

/-- Number of whole grid steps covering an angular half-extent. -/
def nsteps (half step : ℚ) : ℕ := (⌈half / step⌉).toNat

/-- Modelled from the spec: `coords.points_within_distance` (not under
`src/`), the NeighborhoodEnumerator. It enumerates grid-aligned candidate
points inside the bounding box given by the angular half-extents, stepping
by the cell size in each axis from the center (so each candidate coincides
with a cell center), then keeps exactly those whose geodesic distance from
the center is within the radius (inclusive boundary). -/
def points_within_distance (G : Geodesic) (point : ℚ × ℚ) (radius : ℚ)
    (ul dims : ℚ × ℚ) : List (ℚ × ℚ) :=
  ((stepsList (nsteps (G.latHalf radius) dims.1)).flatMap (fun i : ℤ =>
    (stepsList (nsteps (G.lonHalf point.1 radius) dims.2)).map (fun j : ℤ =>
      (point.1 + (i : ℚ) * dims.1, point.2 + (j : ℚ) * dims.2)))).filter
    (fun q => G.gdist point q ≤ radius)

/-- The process-wide `loaded_datasets` dictionary, keyed by file name. -/
def Cache : Type := List (String × Dataset)

/-- Python's `file.endswith('.bil')`, modelled structurally on the
character list of the string. -/
def endsWithBil (file : String) : Bool :=
  file.toList.drop (file.toList.length - 4) = ['.', 'b', 'i', 'l']

/-- Normalization applied by `get_dataset`
(`if not file.endswith('.bil'): file += '.bil'`). -/
def normalizeName (file : String) : String :=
  if endsWithBil file then file else file ++ ".bil"

/-- `get_data.get_dataset`: memoized open of a BIOCLIM data file. On a
cache miss it resolves the path via `find_data`, raising (modelled as
`Except.error`) when the file cannot be found; on a hit it returns the
cached dataset unchanged. -/
def get_dataset (env : Env) (cache : Cache) (file : String) :
    Except String (Dataset × Cache) :=
  let f := normalizeName file
  match List.lookup f cache with
  | some d => .ok (d, cache)
  | none =>
    match env.findData f with
    | none => .error ("Couldn't find " ++ f ++ " in working directory or package data.")
    | some path => .ok (env.openData path, (f, env.openData path) :: cache)

/-- The tuple returned by `get_data.extract_attributes`. -/
structure Attrs where
  data : Dataset
  raster : ℤ × ℤ → ℚ
  no_value : ℚ
  ul : ℚ × ℚ
  dims : ℚ × ℚ
  size : ℕ × ℕ

/-- `get_data.extract_attributes`: opens the dataset, reads the raster,
and extracts the no-data sentinel (defaulting to -9999 on `KeyError`),
the upper-left origin, the cell dimensions, and the raster size. -/
def extract_attributes (env : Env) (cache : Cache) (file : String) :
    Except String (Attrs × Cache) :=
  match get_dataset env cache file with
  | .error e => .error e
  | .ok (d, c) =>
    .ok ({ data := d
           raster := d.raster
           no_value := ((env.meta file).nodata).getD (-9999)
           ul := ((env.meta file).ulymap, (env.meta file).ulxmap)
           dims := ((env.meta file).ydim, (env.meta file).xdim)
           size := (d.ysize, d.xsize) }, c)

/-- The per-point body of `get_values`: read the raw cell value at the
point's cell index, and turn the no-data sentinel into `none`. -/
def valueAt (a : Attrs) (point : ℚ × ℚ) : Option ℚ :=
  let v := a.raster (xy_coords point a.ul a.dims a.size)
  if v = a.no_value then none else some v

/-- `get_data.get_values`: per point, the raw raster value at its cell,
with values equal to the no-data sentinel converted to `None`. -/
def get_values (env : Env) (cache : Cache) (file : String)
    (points : List (ℚ × ℚ)) : Except String (List (Option ℚ) × Cache) :=
  match extract_attributes env cache file with
  | .error e => .error e
  | .ok (a, c) =>
    let result1 := points.map (fun p => a.raster (xy_coords p a.ul a.dims a.size))
    .ok (result1.map (fun v => if v = a.no_value then none else some v), c)

/-- The value collection shared by `get_average` and
`get_spatial_variance`: raster values at the neighborhood's cell
positions, keeping only those different from the no-data sentinel
(`[raster[pos] for pos in raster_positions if raster[pos] != no_value]`). -/
def neighborhoodValues (a : Attrs) (G : Geodesic) (point : ℚ × ℚ)
    (radius : ℚ) : List ℚ :=
  let within := points_within_distance G point radius a.ul a.dims
  let raster_positions := within.map (fun q => xy_coords q a.ul a.dims a.size)
  (raster_positions.filter (fun pos => a.raster pos ≠ a.no_value)).map a.raster

/-- The per-point body of `get_average`: `None` when no valid values lie
within the circle, else their arithmetic mean. -/
def averagePoint (a : Attrs) (G : Geodesic) (point : ℚ × ℚ) (radius : ℚ) :
    Option ℚ :=
  let values := neighborhoodValues a G point radius
  if values.length = 0 then none
  else some (values.sum / (values.length : ℚ))

/-- `get_data.get_average`: like `get_values`, but averaging the valid
values within a circle of the given radius (km). -/
def get_average (env : Env) (cache : Cache) (file : String)
    (points : List (ℚ × ℚ)) (radius : ℚ := 40) :
    Except String (List (Option ℚ) × Cache) :=
  match extract_attributes env cache file with
  | .error e => .error e
  | .ok (a, c) => .ok (points.map (fun p => averagePoint a env.G p radius), c)

/-- `numpy.var` on a list of values: the population variance, the mean of
squared deviations from the mean. -/
def npVar (values : List ℚ) : ℚ :=
  let m := values.sum / (values.length : ℚ)
  ((values.map (fun v => (v - m) ^ 2)).sum) / (values.length : ℚ)

/-- The per-point body of `get_spatial_variance`: `None` outside 60°S–60°N
(polar exclusion), else `None` when no valid values lie within the circle,
else the population variance of the valid values. -/
def variancePoint (a : Attrs) (G : Geodesic) (point : ℚ × ℚ) (radius : ℚ) :
    Option ℚ :=
  if 60 < |point.1| then none
  else
    let values := neighborhoodValues a G point radius
    if values.length = 0 then none else some (npVar values)

/-- `get_data.get_spatial_variance`: like `get_values`, but computing the
spatial variance within a circle of the given radius (km), with the polar
exclusion between 60°N and 60°S. -/
def get_spatial_variance (env : Env) (cache : Cache) (file : String)
    (points : List (ℚ × ℚ)) (radius : ℚ := 40) :
    Except String (List (Option ℚ) × Cache) :=
  match extract_attributes env cache file with
  | .error e => .error e
  | .ok (a, c) => .ok (points.map (fun p => variancePoint a env.G p radius), c)

/-- Spec-side description of the valid-value collection, in the spec's
order of operations: "enumerate neighborhood points, map each to a
CellIndex, collect raster values excluding no-data cells". -/
def specValidValues (a : Attrs) (G : Geodesic) (point : ℚ × ℚ)
    (radius : ℚ) : List ℚ :=
  (((points_within_distance G point radius a.ul a.dims).map
    (fun q => a.raster (xy_coords q a.ul a.dims a.size))).filter
    (fun v => v ≠ a.no_value))

/-! Concrete fixtures used to instantiate hypotheses of the theorems
below on explicit inputs. -/

/-- A concrete admissible distance function on lat/lon pairs: the taxicab
distance in degrees. It vanishes on the diagonal and is nonnegative, which
is all the theorems below assume of the geodesic distance. -/
def taxicab (p q : ℚ × ℚ) : ℚ := |p.1 - q.1| + |p.2 - q.2|

/-- A concrete geodesic bundle built from `taxicab`, with the identity as
both angular half-extents (zero at zero radius and monotone). -/
def G0 : Geodesic := { gdist := taxicab, latHalf := fun r => r, lonHalf := fun _ r => r }

/-- A concrete raster: value 0 at cell (0,0), 2 at (0,1), 1 at (0,2), and
the no-data sentinel -9999 everywhere else. -/
def raster0 : ℤ × ℤ → ℚ := fun pos =>
  if pos = ((0 : ℤ), (0 : ℤ)) then 0
  else if pos = ((0 : ℤ), (1 : ℤ)) then 2
  else if pos = ((0 : ℤ), (2 : ℤ)) then 1
  else -9999

/-- A concrete dataset holding `raster0`. -/
def ds0 : Dataset := { desc := "bio1.bil", raster := raster0, ysize := 360, xsize := 720 }

/-- A concrete environment: every name resolves to `ds0`, with origin
(0, 0), cell size (1, 1), sentinel -9999, and geodesic bundle `G0`. -/
def env0 : Env :=
  { findData := fun _ => some "data/bio1.bil"
    openData := fun _ => ds0
    meta := fun _ => { ulymap := 0, ulxmap := 0, ydim := 1, xdim := 1, nodata := some (-9999) }
    G := G0 }

/-- The attributes `extract_attributes env0 [] "bio1"` produces. -/
def attrs0 : Attrs :=
  { data := ds0, raster := raster0, no_value := -9999
    ul := (0, 0), dims := (1, 1), size := (360, 720) }

/-- An environment whose path-resolution service finds nothing. -/
def envNone : Env :=
  { findData := fun _ => none
    openData := fun _ => ds0
    meta := fun _ => { ulymap := 0, ulxmap := 0, ydim := 1, xdim := 1, nodata := some (-9999) }
    G := G0 }

/-! Helper lemmas. -/

/-- With zero angular half-extents at radius 0 and a reflexive-at-zero
distance, the zero-radius neighborhood is exactly the center point. -/
lemma points_within_distance_zero (G : Geodesic) (p : ℚ × ℚ) (ul dims : ℚ × ℚ)
    (hg : G.gdist p p = 0) (hlat : G.latHalf 0 = 0) (hlon : G.lonHalf p.1 0 = 0) :
    points_within_distance G p 0 ul dims = [p] := by
  simp [points_within_distance, nsteps, hlat, hlon, stepsList, List.filter, hg]

/-- At radius 0 the collected neighborhood values are the center cell's
value when it is valid, and nothing otherwise. -/
lemma neighborhoodValues_zero (a : Attrs) (G : Geodesic) (p : ℚ × ℚ)
    (hg : G.gdist p p = 0) (hlat : G.latHalf 0 = 0) (hlon : G.lonHalf p.1 0 = 0) :
    neighborhoodValues a G p 0
      = if a.raster (xy_coords p a.ul a.dims a.size) = a.no_value then []
        else [a.raster (xy_coords p a.ul a.dims a.size)] := by
  unfold neighborhoodValues
  rw [points_within_distance_zero G p a.ul a.dims hg hlat hlon]
  by_cases h : a.raster (xy_coords p a.ul a.dims a.size) = a.no_value <;>
    simp [List.filter, h]

/-- `extract_attributes` only repackages the dataset and the header
metadata; on success the attributes have the documented field values. -/
lemma extract_attributes_fields (env : Env) (cache : Cache) (file : String)
    (a : Attrs) (c : Cache) (h : extract_attributes env cache file = .ok (a, c)) :
    a.no_value = ((env.meta file).nodata).getD (-9999)
    ∧ a.ul = ((env.meta file).ulymap, (env.meta file).ulxmap)
    ∧ a.dims = ((env.meta file).ydim, (env.meta file).xdim)
    ∧ a.raster = a.data.raster ∧ a.size = (a.data.ysize, a.data.xsize) := by
  unfold extract_attributes at h
  cases hd : get_dataset env cache file with
  | error e => rw [hd] at h; exact absurd h (by simp)
  | ok dc =>
    rw [hd] at h
    simp only [Except.ok.injEq, Prod.mk.injEq] at h
    obtain ⟨hA, hC⟩ := h
    subst hA
    simp

/-- The code's filter-then-map value collection agrees with the spec's
map-then-filter description. -/
lemma neighborhoodValues_eq_spec (a : Attrs) (G : Geodesic) (p : ℚ × ℚ)
    (radius : ℚ) :
    neighborhoodValues a G p radius = specValidValues a G p radius := by
  unfold neighborhoodValues specValidValues
  simp only [List.filter_map, List.map_map]
  rfl

/-- At radius 0 the average degenerates to the point lookup. -/
lemma averagePoint_zero (a : Attrs) (G : Geodesic) (p : ℚ × ℚ)
    (hg : G.gdist p p = 0) (hlat : G.latHalf 0 = 0) (hlon : G.lonHalf p.1 0 = 0) :
    averagePoint a G p 0 = valueAt a p := by
  unfold averagePoint valueAt
  rw [neighborhoodValues_zero a G p hg hlat hlon]
  by_cases h : a.raster (xy_coords p a.ul a.dims a.size) = a.no_value <;> simp [h]

/-- The population variance of a one-element list is 0. -/
lemma npVar_singleton (v : ℚ) : npVar [v] = 0 := by
  simp [npVar]

/-! Claim theorems. -/

/-- C7: the coordinate-to-index mapping returns
row = floor((origin latitude − point latitude) / latitude step) and
col = floor((point longitude − origin longitude) / longitude step), and is
independent of the raster-size argument (no internal bounds checking). -/
theorem xy_coords_floor_spec (point ul dims : ℚ × ℚ) (size : ℕ × ℕ) :
    xy_coords point ul dims size
      = (⌊(ul.1 - point.1) / dims.1⌋, ⌊(point.2 - ul.2) / dims.2⌋)
    ∧ ∀ size' : ℕ × ℕ, xy_coords point ul dims size' = xy_coords point ul dims size :=
  ⟨rfl, fun _ => rfl⟩

/-- C2: for any point whose absolute latitude exceeds 60 degrees, the
spatial-variance operation returns the missing marker, for every radius,
every geodesic machinery and every raster; on a singleton list the
operation returns `[none]`. -/
theorem get_spatial_variance_polar_missing (env : Env) (cache : Cache)
    (file : String) (radius : ℚ) (p : ℚ × ℚ) (h : 60 < |p.1|) :
    (∀ (a : Attrs) (G : Geodesic), variancePoint a G p radius = none)
    ∧ (∀ (a : Attrs) (c : Cache), extract_attributes env cache file = .ok (a, c) →
        get_spatial_variance env cache file [p] radius = .ok ([none], c)) := by
  constructor
  · intro a G
    simp [variancePoint, h]
  · intro a c hx
    unfold get_spatial_variance
    rw [hx]
    simp [variancePoint, h]

/-- Witness for C2 at the concrete polar point (70, 10). -/
theorem get_spatial_variance_polar_missing_witness :
    (60 < |(70 : ℚ)|)
    ∧ ((∀ (a : Attrs) (G : Geodesic), variancePoint a G (70, 10) 40 = none)
       ∧ (∀ (a : Attrs) (c : Cache), extract_attributes env0 [] "bio1" = .ok (a, c) →
           get_spatial_variance env0 [] "bio1" [(70, 10)] 40 = .ok ([none], c))) :=
  ⟨by norm_num,
   get_spatial_variance_polar_missing env0 [] "bio1" 40 (70, 10) (by norm_num)⟩

/-- C3: point lookup returns the missing marker exactly when the raw cell
value at the point's cell index equals the layer's no-data sentinel, and
otherwise returns that cell value; the sentinel defaults to -9999 when the
metadata supplies none. -/
theorem get_values_sentinel_spec (env : Env) (cache : Cache) (file : String)
    (points : List (ℚ × ℚ)) (a : Attrs) (c : Cache)
    (h : extract_attributes env cache file = .ok (a, c)) :
    get_values env cache file points = .ok (points.map (valueAt a), c)
    ∧ (∀ p : ℚ × ℚ,
        (valueAt a p = none ↔ a.raster (xy_coords p a.ul a.dims a.size) = a.no_value)
        ∧ (a.raster (xy_coords p a.ul a.dims a.size) ≠ a.no_value →
            valueAt a p = some (a.raster (xy_coords p a.ul a.dims a.size))))
    ∧ a.no_value = ((env.meta file).nodata).getD (-9999)
    ∧ ((env.meta file).nodata = none → a.no_value = -9999) := by
  refine ⟨?_, ?_, ?_, ?_⟩
  · unfold get_values
    rw [h]
    simp only [List.map_map]
    rfl
  · intro p
    constructor
    · by_cases hv : a.raster (xy_coords p a.ul a.dims a.size) = a.no_value <;>
        simp [valueAt, hv]
    · intro hv
      simp [valueAt, hv]
  · exact (extract_attributes_fields env cache file a c h).1
  · intro hn
    rw [(extract_attributes_fields env cache file a c h).1, hn]
    rfl

/-- Witness for C3 on the concrete environment `env0`. -/
theorem get_values_sentinel_spec_witness :
    extract_attributes env0 [] "bio1" = .ok (attrs0, [("bio1.bil", ds0)])
    ∧ (get_values env0 [] "bio1" [(10, 10)]
        = .ok ([(10, 10)].map (valueAt attrs0), [("bio1.bil", ds0)])
       ∧ (∀ p : ℚ × ℚ,
           (valueAt attrs0 p = none
             ↔ attrs0.raster (xy_coords p attrs0.ul attrs0.dims attrs0.size) = attrs0.no_value)
           ∧ (attrs0.raster (xy_coords p attrs0.ul attrs0.dims attrs0.size) ≠ attrs0.no_value →
               valueAt attrs0 p
                 = some (attrs0.raster (xy_coords p attrs0.ul attrs0.dims attrs0.size))))
       ∧ attrs0.no_value = ((env0.meta "bio1").nodata).getD (-9999)
       ∧ ((env0.meta "bio1").nodata = none → attrs0.no_value = -9999)) :=
  ⟨rfl, get_values_sentinel_spec env0 [] "bio1" [(10, 10)] attrs0 [("bio1.bil", ds0)] rfl⟩

/-- C4: for every point and radius, the radius-average collects exactly
the neighborhood raster values excluding the no-data sentinel (the spec's
map-then-filter description agrees with the code's filter-then-map), and
returns the missing marker when that collection is empty, else its
arithmetic mean. -/
theorem get_average_mean_spec (a : Attrs) (G : Geodesic) (p : ℚ × ℚ) (radius : ℚ) :
    neighborhoodValues a G p radius = specValidValues a G p radius
    ∧ averagePoint a G p radius
      = (if specValidValues a G p radius = [] then none
         else some ((specValidValues a G p radius).sum
            / ((specValidValues a G p radius).length : ℚ))) := by
  have key : neighborhoodValues a G p radius = specValidValues a G p radius :=
    neighborhoodValues_eq_spec a G p radius
  refine ⟨key, ?_⟩
  unfold averagePoint
  rw [key]
  by_cases h : specValidValues a G p radius = [] <;> simp [h]

/-- C1: with radius 0 the averaging operation coincides with point
lookup: on a single-point list, `get_average` with `radius = 0` returns
exactly what `get_values` returns, because the zero-radius neighborhood
is the center point alone. -/
theorem get_average_zero_radius_eq_get_values (env : Env) (cache : Cache)
    (file : String) (p : ℚ × ℚ) (hg : env.G.gdist p p = 0)
    (hlat : env.G.latHalf 0 = 0) (hlon : env.G.lonHalf p.1 0 = 0) :
    get_average env cache file [p] 0 = get_values env cache file [p] := by
  unfold get_average get_values
  cases h : extract_attributes env cache file with
  | error e => rfl
  | ok ac =>
    simp [averagePoint_zero ac.1 env.G p hg hlat hlon, valueAt]

/-- Witness for C1 on the concrete environment `env0` at the point
(10, 10). -/
theorem get_average_zero_radius_eq_get_values_witness :
    (env0.G.gdist (10, 10) (10, 10) = 0
      ∧ env0.G.latHalf 0 = 0 ∧ env0.G.lonHalf 10 0 = 0)
    ∧ get_average env0 [] "bio1" [(10, 10)] 0 = get_values env0 [] "bio1" [(10, 10)] :=
  ⟨⟨by norm_num [env0, G0, taxicab], rfl, rfl⟩,
   get_average_zero_radius_eq_get_values env0 [] "bio1" (10, 10)
     (by norm_num [env0, G0, taxicab]) rfl rfl⟩

/-- C5: for a non-polar point, the spatial variance is the missing marker
when the valid-value set is empty and otherwise its population variance
(the mean of squared deviations from the mean); at radius 0 it is 0 when
the center cell is valid and the missing marker when it holds the
sentinel. -/
theorem get_spatial_variance_spec (a : Attrs) (G : Geodesic) (p : ℚ × ℚ)
    (radius : ℚ) (h : |p.1| ≤ 60) (hg : G.gdist p p = 0)
    (hlat : G.latHalf 0 = 0) (hlon : G.lonHalf p.1 0 = 0) :
    variancePoint a G p radius
      = (if specValidValues a G p radius = [] then none
         else some (npVar (specValidValues a G p radius)))
    ∧ (a.raster (xy_coords p a.ul a.dims a.size) ≠ a.no_value →
        variancePoint a G p 0 = some 0)
    ∧ (a.raster (xy_coords p a.ul a.dims a.size) = a.no_value →
        variancePoint a G p 0 = none) := by
  have hnp : ¬ 60 < |p.1| := not_lt.mpr h
  refine ⟨?_, ?_, ?_⟩
  · unfold variancePoint
    rw [if_neg hnp, neighborhoodValues_eq_spec a G p radius]
    by_cases he : specValidValues a G p radius = [] <;> simp [he]
  · intro hv
    unfold variancePoint
    rw [if_neg hnp, neighborhoodValues_zero a G p hg hlat hlon, if_neg hv]
    simp [npVar_singleton]
  · intro hv
    unfold variancePoint
    rw [if_neg hnp, neighborhoodValues_zero a G p hg hlat hlon, if_pos hv]
    simp

/-- Witness for C5 at the concrete non-polar point (10, 10). -/
theorem get_spatial_variance_spec_witness :
    (|(10 : ℚ)| ≤ 60 ∧ G0.gdist (10, 10) (10, 10) = 0
      ∧ G0.latHalf 0 = 0 ∧ G0.lonHalf 10 0 = 0)
    ∧ (variancePoint attrs0 G0 (10, 10) 40
        = (if specValidValues attrs0 G0 (10, 10) 40 = [] then none
           else some (npVar (specValidValues attrs0 G0 (10, 10) 40)))
       ∧ (attrs0.raster (xy_coords (10, 10) attrs0.ul attrs0.dims attrs0.size) ≠ attrs0.no_value →
           variancePoint attrs0 G0 (10, 10) 0 = some 0)
       ∧ (attrs0.raster (xy_coords (10, 10) attrs0.ul attrs0.dims attrs0.size) = attrs0.no_value →
           variancePoint attrs0 G0 (10, 10) 0 = none)) :=
  ⟨⟨by norm_num, by norm_num [G0, taxicab], rfl, rfl⟩,
   get_spatial_variance_spec attrs0 G0 (10, 10) 40 (by norm_num)
     (by norm_num [G0, taxicab]) rfl rfl⟩

/-- C8: when the path-resolution service cannot resolve a layer name that
is not already cached, `get_dataset` raises the layer-not-found error
naming the locations searched, and every sampling operation propagates
that error immediately instead of returning a result list. -/
theorem layer_not_found_fatal (env : Env) (cache : Cache) (file : String)
    (points : List (ℚ × ℚ)) (radius : ℚ)
    (hmiss : List.lookup (normalizeName file) cache = none)
    (hfind : env.findData (normalizeName file) = none) :
    get_dataset env cache file
      = .error ("Couldn't find " ++ normalizeName file
          ++ " in working directory or package data.")
    ∧ get_values env cache file points
      = .error ("Couldn't find " ++ normalizeName file
          ++ " in working directory or package data.")
    ∧ get_average env cache file points radius
      = .error ("Couldn't find " ++ normalizeName file
          ++ " in working directory or package data.")
    ∧ get_spatial_variance env cache file points radius
      = .error ("Couldn't find " ++ normalizeName file
          ++ " in working directory or package data.") := by
  have hd : get_dataset env cache file
      = .error ("Couldn't find " ++ normalizeName file
          ++ " in working directory or package data.") := by
    simp only [get_dataset, hmiss, hfind]
  have hx : extract_attributes env cache file
      = .error ("Couldn't find " ++ normalizeName file
          ++ " in working directory or package data.") := by
    simp only [extract_attributes, hd]
  exact ⟨hd, by simp only [get_values, hx], by simp only [get_average, hx],
    by simp only [get_spatial_variance, hx]⟩

/-- Witness for C8 on the concrete resolver-less environment `envNone`. -/
theorem layer_not_found_fatal_witness :
    (List.lookup (normalizeName "bio1") ([] : Cache) = none
      ∧ envNone.findData (normalizeName "bio1") = none)
    ∧ (get_dataset envNone [] "bio1"
        = .error ("Couldn't find " ++ normalizeName "bio1"
            ++ " in working directory or package data.")
       ∧ get_values envNone [] "bio1" [(10, 10)]
        = .error ("Couldn't find " ++ normalizeName "bio1"
            ++ " in working directory or package data.")
       ∧ get_average envNone [] "bio1" [(10, 10)] 40
        = .error ("Couldn't find " ++ normalizeName "bio1"
            ++ " in working directory or package data.")
       ∧ get_spatial_variance envNone [] "bio1" [(10, 10)] 40
        = .error ("Couldn't find " ++ normalizeName "bio1"
            ++ " in working directory or package data.")) :=
  ⟨⟨rfl, rfl⟩, layer_not_found_fatal envNone [] "bio1" [(10, 10)] 40 rfl rfl⟩

/-- The cache-preservation core of `get_dataset`: a successful call keeps
the loaded dataset under the normalized name, yields the same result when
repeated on the resulting cache, and never drops or changes an existing
entry. -/
lemma get_dataset_cache_sound (env : Env) (cache : Cache) (file : String)
    (d : Dataset) (c' : Cache) (h : get_dataset env cache file = .ok (d, c')) :
    List.lookup (normalizeName file) c' = some d
    ∧ get_dataset env c' file = .ok (d, c')
    ∧ ∀ (k : String) (v : Dataset),
        List.lookup k cache = some v → List.lookup k c' = some v := by
  cases hl : List.lookup (normalizeName file) cache with
  | some d0 =>
    simp only [get_dataset, hl, Except.ok.injEq, Prod.mk.injEq] at h
    obtain ⟨hd0, hc⟩ := h
    subst hd0
    subst hc
    refine ⟨hl, ?_, fun k v hkv => hkv⟩
    simp only [get_dataset, hl]
  | none =>
    cases hf : env.findData (normalizeName file) with
    | none =>
      simp only [get_dataset, hl, hf] at h
      exact Except.noConfusion h
    | some path =>
      simp only [get_dataset, hl, hf, Except.ok.injEq, Prod.mk.injEq] at h
      obtain ⟨hd0, hc⟩ := h
      subst hd0
      subst hc
      have hself : List.lookup (normalizeName file)
          ((normalizeName file, env.openData path) :: cache)
          = some (env.openData path) := List.lookup_cons_self
      refine ⟨hself, ?_, ?_⟩
      · simp only [get_dataset, hself]
      · intro k v hkv
        by_cases hk : k = normalizeName file
        · rw [hk] at hkv
          rw [hkv] at hl
          exact absurd hl (by simp)
        · simpa [List.lookup_cons, beq_eq_false_iff_ne.mpr hk] using hkv

/-- C9: the layer cache is keyed by the name with its `.bil` extension and
is memoized: a cached name is answered from the cache with the cache left
untouched; a successful load installs the dataset under its key so that
every later call reuses the same object; and no call evicts or rebinds an
existing entry (sampling operations included). -/
theorem dataset_cache_memoized (env : Env) (cache : Cache) (file : String) :
    (∀ d : Dataset, List.lookup (normalizeName file) cache = some d →
        get_dataset env cache file = .ok (d, cache))
    ∧ (∀ (d : Dataset) (c' : Cache), get_dataset env cache file = .ok (d, c') →
        List.lookup (normalizeName file) c' = some d
        ∧ get_dataset env c' file = .ok (d, c')
        ∧ ∀ (k : String) (v : Dataset),
            List.lookup k cache = some v → List.lookup k c' = some v)
    ∧ (∀ (points : List (ℚ × ℚ)) (res : List (Option ℚ)) (c' : Cache),
        get_values env cache file points = .ok (res, c') →
        ∀ (k : String) (v : Dataset),
          List.lookup k cache = some v → List.lookup k c' = some v) := by
  refine ⟨?_, ?_, ?_⟩
  · intro d hd
    simp only [get_dataset, hd]
  · intro d c' h
    exact get_dataset_cache_sound env cache file d c' h
  · intro points res c' h
    unfold get_values at h
    cases hx : extract_attributes env cache file with
    | error e =>
      rw [hx] at h
      exact Except.noConfusion h
    | ok ac =>
      obtain ⟨a0, c0⟩ := ac
      rw [hx] at h
      simp only [Except.ok.injEq, Prod.mk.injEq] at h
      obtain ⟨-, hc⟩ := h
      unfold extract_attributes at hx
      cases hd : get_dataset env cache file with
      | error e =>
        rw [hd] at hx
        exact Except.noConfusion hx
      | ok dc =>
        obtain ⟨d1, c1⟩ := dc
        rw [hd] at hx
        simp only [Except.ok.injEq, Prod.mk.injEq] at hx
        obtain ⟨-, hc2⟩ := hx
        rw [← hc, ← hc2]
        exact (get_dataset_cache_sound env cache file d1 c1 (by rw [hd])).2.2

/-- Widening the symmetric offset range keeps the old offsets. -/
lemma stepsList_sublist {n m : ℕ} (h : n ≤ m) : List.Sublist (stepsList n) (stepsList m) := by
  induction m with
  | zero =>
    rw [Nat.le_zero.mp h]
  | succ m ih =>
    rcases Nat.eq_or_lt_of_le h with he | hlt
    · rw [he]
    · refine (ih (Nat.lt_succ_iff.mp hlt)).trans ?_
      show List.Sublist (stepsList m) ((-(m + 1 : ℤ)) :: (stepsList m ++ [(m + 1 : ℤ)]))
      exact (List.sublist_append_left (stepsList m) [(m + 1 : ℤ)]).cons _

/-- `flatMap` preserves sublists when the inner lists do. -/
lemma flatMap_sublist {α β : Type} {l₁ l₂ : List α} (f g : α → List β)
    (h : List.Sublist l₁ l₂) (hfg : ∀ x, List.Sublist (f x) (g x)) :
    List.Sublist (l₁.flatMap f) (l₂.flatMap g) := by
  induction h with
  | slnil => simp
  | cons a h ih =>
    rw [List.flatMap_cons]
    exact ih.trans (List.sublist_append_right _ _)
  | cons₂ a h ih =>
    rw [List.flatMap_cons, List.flatMap_cons]
    exact List.Sublist.append (hfg a) ih

/-- `filter` on a sublist with a weaker predicate yields a sublist. -/
lemma filter_sublist_mono {α : Type} {l₁ l₂ : List α} (p q : α → Bool)
    (h : List.Sublist l₁ l₂) (hpq : ∀ x, p x = true → q x = true) :
    List.Sublist (l₁.filter p) (l₂.filter q) :=
  (List.monotone_filter_right l₁ hpq).trans (h.filter q)

/-- The step count over a positive cell size is monotone in the
half-extent. -/
lemma nsteps_mono {h1 h2 s : ℚ} (h : h1 ≤ h2) (hs : 0 < s) :
    nsteps h1 s ≤ nsteps h2 s :=
  Int.toNat_le_toNat (Int.ceil_le_ceil ((div_le_div_iff_of_pos_right hs).mpr h))

/-- Enlarging the radius only enlarges the enumerated neighborhood
(with monotone half-extents and positive cell sizes). -/
lemma points_within_distance_sublist (G : Geodesic) (p : ℚ × ℚ)
    (ul dims : ℚ × ℚ) (r1 r2 : ℚ) (h12 : r1 ≤ r2)
    (hlat : Monotone G.latHalf) (hlon : Monotone (G.lonHalf p.1))
    (hd1 : 0 < dims.1) (hd2 : 0 < dims.2) :
    List.Sublist (points_within_distance G p r1 ul dims)
      (points_within_distance G p r2 ul dims) := by
  unfold points_within_distance
  refine filter_sublist_mono _ _ ?_ ?_
  · refine flatMap_sublist _ _ (stepsList_sublist (nsteps_mono (hlat h12) hd1)) ?_
    intro i
    exact (stepsList_sublist (nsteps_mono (hlon h12) hd2)).map _
  · intro x hx
    simp only [decide_eq_true_eq] at hx ⊢
    exact le_trans hx h12

/-- C6 (amended): for a fixed point, enlarging the radius never shrinks
the enumerated neighborhood nor the number of valid cells entering the
average, given monotone bounding-box half-extents and positive cell
sizes; the variance itself is not monotone (see the counterexample). -/
theorem get_average_set_size_monotone (a : Attrs) (G : Geodesic)
    (p : ℚ × ℚ) (r1 r2 : ℚ) (h12 : r1 ≤ r2)
    (hlat : Monotone G.latHalf) (hlon : Monotone (G.lonHalf p.1))
    (hd1 : 0 < a.dims.1) (hd2 : 0 < a.dims.2) :
    List.Sublist (points_within_distance G p r1 a.ul a.dims)
      (points_within_distance G p r2 a.ul a.dims)
    ∧ (neighborhoodValues a G p r1).length ≤ (neighborhoodValues a G p r2).length := by
  have hpwd := points_within_distance_sublist G p a.ul a.dims r1 r2 h12 hlat hlon hd1 hd2
  refine ⟨hpwd, ?_⟩
  have hsub : List.Sublist (neighborhoodValues a G p r1) (neighborhoodValues a G p r2) := by
    unfold neighborhoodValues
    exact (((hpwd.map _).filter _).map _)
  exact hsub.length_le

/-- Witness for the amended C6 at the concrete layer `attrs0` with radii
1 and 2. -/
theorem get_average_set_size_monotone_witness :
    ((1 : ℚ) ≤ 2 ∧ Monotone G0.latHalf ∧ Monotone (G0.lonHalf 0)
      ∧ (0 : ℚ) < attrs0.dims.1 ∧ (0 : ℚ) < attrs0.dims.2)
    ∧ (List.Sublist (points_within_distance G0 (0, 0) 1 attrs0.ul attrs0.dims)
        (points_within_distance G0 (0, 0) 2 attrs0.ul attrs0.dims)
       ∧ (neighborhoodValues attrs0 G0 (0, 0) 1).length
          ≤ (neighborhoodValues attrs0 G0 (0, 0) 2).length) :=
  ⟨⟨by norm_num, fun _ _ h => h, fun _ _ h => h,
    by norm_num [attrs0], by norm_num [attrs0]⟩,
   get_average_set_size_monotone attrs0 G0 (0, 0) 1 2 (by norm_num)
     (fun _ _ h => h) (fun _ _ h => h)
     (by norm_num [attrs0]) (by norm_num [attrs0])⟩

/-- C6 (counterexample): on the concrete layer `attrs0` with the
admissible geodesic bundle `G0` and the non-polar point (0, 0), the
spatial variance at radius 1 is 1 but at radius 2 it is 2/3: enlarging
the radius strictly decreased the variance, refuting the claimed variance
monotonicity. -/
theorem variance_radius_monotonicity_fails :
    ((∀ q : ℚ × ℚ, G0.gdist q q = 0)
      ∧ (∀ q1 q2 : ℚ × ℚ, 0 ≤ G0.gdist q1 q2)
      ∧ Monotone G0.latHalf ∧ (∀ t : ℚ, Monotone (G0.lonHalf t))
      ∧ (0 : ℚ) < attrs0.dims.1 ∧ (0 : ℚ) < attrs0.dims.2)
    ∧ |((0, 0) : ℚ × ℚ).1| ≤ 60
    ∧ (1 : ℚ) ≤ 2
    ∧ variancePoint attrs0 G0 (0, 0) 1 = some 1
    ∧ variancePoint attrs0 G0 (0, 0) 2 = some (2 / 3)
    ∧ ¬ ((1 : ℚ) ≤ 2 / 3) := by
  refine ⟨⟨?_, ?_, fun _ _ h => h, fun _ _ _ h => h,
    by norm_num [attrs0], by norm_num [attrs0]⟩, by norm_num, by norm_num,
    ?_, ?_, by norm_num⟩
  · intro q
    simp [G0, taxicab]
  · intro q1 q2
    exact add_nonneg (abs_nonneg _) (abs_nonneg _)
  · norm_num [variancePoint, neighborhoodValues, points_within_distance, nsteps,
      stepsList, G0, taxicab, attrs0, raster0, xy_coords, npVar, List.flatMap,
      List.filter, Prod.mk.injEq, Prod.ext_iff]
  · norm_num [variancePoint, neighborhoodValues, points_within_distance, nsteps,
      stepsList, G0, taxicab, attrs0, raster0, xy_coords, npVar, List.flatMap,
      List.filter, Prod.mk.injEq, Prod.ext_iff]

/-- C10: a missing center cell never by itself forces a missing average:
whenever any neighborhood cell holds a valid value, `get_average`'s
per-point result is numeric even though the point's own cell holds the
no-data sentinel (the center is merely excluded from the collection). -/
theorem get_average_center_missing_not_forced (a : Attrs) (G : Geodesic)
    (p q : ℚ × ℚ) (radius : ℚ)
    (hcenter : a.raster (xy_coords p a.ul a.dims a.size) = a.no_value)
    (hq : q ∈ points_within_distance G p radius a.ul a.dims)
    (hval : a.raster (xy_coords q a.ul a.dims a.size) ≠ a.no_value) :
    ∃ x : ℚ, averagePoint a G p radius = some x := by
  have hmem : a.raster (xy_coords q a.ul a.dims a.size)
      ∈ neighborhoodValues a G p radius := by
    unfold neighborhoodValues
    refine List.mem_map_of_mem a.raster ?_
    refine List.mem_filter.mpr ⟨List.mem_map_of_mem _ hq, ?_⟩
    simpa using hval
  have hne : neighborhoodValues a G p radius ≠ [] := by
    intro h0
    rw [h0] at hmem
    exact absurd hmem (List.not_mem_nil _)
  simp only [averagePoint]
  rw [if_neg (by simpa [List.length_eq_zero] using hne)]
  exact ⟨_, rfl⟩

/-- Witness for C10: at (0, 3) the center cell is no-data, yet the
neighbor (0, 2) carries a valid value, so the radius-1 average is
numeric. -/
theorem get_average_center_missing_not_forced_witness :
    (attrs0.raster (xy_coords (0, 3) attrs0.ul attrs0.dims attrs0.size)
        = attrs0.no_value
      ∧ ((0 : ℚ), (2 : ℚ)) ∈ points_within_distance G0 (0, 3) 1 attrs0.ul attrs0.dims
      ∧ attrs0.raster (xy_coords (0, 2) attrs0.ul attrs0.dims attrs0.size)
        ≠ attrs0.no_value)
    ∧ ∃ x : ℚ, averagePoint attrs0 G0 (0, 3) 1 = some x :=
  ⟨⟨by norm_num [attrs0, raster0, xy_coords, Prod.ext_iff],
    by norm_num [points_within_distance, nsteps, stepsList, G0, taxicab, attrs0,
      List.flatMap, List.filter, Prod.ext_iff],
    by norm_num [attrs0, raster0, xy_coords, Prod.ext_iff]⟩,
   get_average_center_missing_not_forced attrs0 G0 (0, 3) (0, 2) 1
     (by norm_num [attrs0, raster0, xy_coords, Prod.ext_iff])
     (by norm_num [points_within_distance, nsteps, stepsList, G0, taxicab, attrs0,
        List.flatMap, List.filter, Prod.ext_iff])
     (by norm_num [attrs0, raster0, xy_coords, Prod.ext_iff])⟩

end Pybioclim
